import Mathlib

/-!
Verification of the audio-decoding dispatch and playback-shaping layer
(`audio_decoder.cpp`): format byte-width table, fade envelope, the shared
`Decode` loop with padding and bounded loop re-entry, `DecodeAll`, and the
format-sniffing factory `Create`.

Floating-point `double` fields of the fade envelope are modelled over `ℚ`;
the arithmetic used (`+`, `-`, `*`, `/`, comparisons) is exact there.
-/

namespace Player

/-! ### Sample format byte-width table (`AudioDecoder::GetSamplesizeForFormat`) -/

/-- The sample-format enumeration (`AudioDecoder::Format`): the seven values
named by the `switch` in `GetSamplesizeForFormat`. -/
inductive Format where
  | S8 | U8 | S16 | U16 | S32 | U32 | F32
deriving DecidableEq, Repr, Fintype

/-- `AudioDecoder::GetSamplesizeForFormat`: byte width of each sample format.
The `assert(false); return -1` after the `switch` is unreachable because the
enumeration is exactly these seven values. -/
def GetSamplesizeForFormat : Format → Int
  | .S8 => 1
  | .U8 => 1
  | .S16 => 2
  | .U16 => 2
  | .S32 => 4
  | .U32 => 4
  | .F32 => 4

/-! ### Fade envelope (`SetFade`, `Update`, `SetVolume`) -/

/-- The volume/fade fields of `AudioDecoder` (`double` in the source,
modelled over `ℚ`). -/
structure FadeState where
  volume : ℚ
  fade_end : ℚ
  fade_time : ℚ
  delta_step : ℚ
deriving DecidableEq, Repr

/-- The clamp at the end of `AudioDecoder::Update`:
`volume > 100.0 ? 100.0 : volume < 0.0 ? 0.0 : volume`. -/
def clampVolume (v : ℚ) : ℚ :=
  if v > 100 then 100 else if v < 0 then 0 else v

/-- `AudioDecoder::SetFade(begin, end, duration)`. -/
def SetFade (s : FadeState) (b e d : Int) : FadeState :=
  let s0 := { s with fade_time := 0 }
  if (d : ℚ) ≤ 0 then
    { s0 with volume := (e : ℚ) }
  else if b = e then
    { s0 with volume := (e : ℚ) }
  else
    { volume := (b : ℚ), fade_end := (e : ℚ), fade_time := (d : ℚ),
      delta_step := ((e : ℚ) - (b : ℚ)) / (d : ℚ) }

/-- `AudioDecoder::Update(delta)`. -/
def Update (s : FadeState) (delta : Int) : FadeState :=
  if s.fade_time ≤ 0 then s
  else
    { s with
      fade_time := s.fade_time - (delta : ℚ),
      volume := clampVolume (s.volume + (delta : ℚ) * s.delta_step) }

/-- `AudioDecoder::SetVolume(volume)`: stores the integer volume with no
clamping. -/
def SetVolume (s : FadeState) (v : Int) : FadeState :=
  { s with volume := (v : ℚ) }

/-- One call to a volume-affecting operation of the decoder. -/
inductive FadeOp where
  | setVolume (v : Int)
  | setFade (b e d : Int)
  | update (delta : Int)
deriving DecidableEq, Repr

/-- Apply one operation. -/
def applyOp (s : FadeState) : FadeOp → FadeState
  | .setVolume v => SetVolume s v
  | .setFade b e d => SetFade s b e d
  | .update d => Update s d

/-- Apply a sequence of operations, left to right. -/
def applyOps (s : FadeState) : List FadeOp → FadeState
  | [] => s
  | op :: ops => applyOps (applyOp s op) ops

/-- Volume arguments of an operation lie in `[0, 100]`. -/
def ArgOk : FadeOp → Prop
  | .setVolume v => 0 ≤ v ∧ v ≤ 100
  | .setFade b e _ => 0 ≤ b ∧ b ≤ 100 ∧ 0 ≤ e ∧ e ≤ 100
  | .update _ => True

/-! ### Decode engine (`AudioDecoder::Decode`, `AudioDecoder::DecodeAll`)

The destination buffer is a list of `Option Nat`: `none` is an undefined
(unwritten) byte, `some b` a byte holding value `b`.  A backend
(`FillBuffer` / `IsFinished` / `Rewind`, the virtuals consumed by the shared
decode loop) is a record of pure functions over an abstract backend state. -/

/-- A codec backend as consumed by `AudioDecoder::Decode`:
`fillBuffer s len` returns the `int` result of `FillBuffer`, the bytes the
backend actually wrote (starting at offset 0 of the destination), and the
backend state afterwards; `isFinished` and `rewind` model `IsFinished()` and
`Rewind()` (`Rewind` asserts that `Seek(0, beg)` succeeds, so it is modelled
as total). -/
structure Backend (σ : Type) where
  fillBuffer : σ → Nat → Int × List Nat × σ
  isFinished : σ → Bool
  rewind : σ → σ

/-- The fields of `AudioDecoder` used by `Decode`. -/
structure DecState (σ : Type) where
  backend : σ
  paused : Bool
  looping : Bool
  loop_count : Nat
deriving DecidableEq, Repr

/-- The backend honours the `FillBuffer` contract: it never claims more
bytes than requested, and when it returns `res ≥ 0` it has actually written
at least `res` bytes. -/
def GoodBackend {σ : Type} (B : Backend σ) : Prop :=
  ∀ s len, (B.fillBuffer s len).2.1.length ≤ len ∧
    (B.fillBuffer s len).1 ≤ (len : Int) ∧
    (0 ≤ (B.fillBuffer s len).1 →
      ((B.fillBuffer s len).1).toNat ≤ (B.fillBuffer s len).2.1.length)

/-- Destination buffer contents after `FillBuffer` wrote `data` and returned
`res`, followed by the two `memset` fixups of `Decode` (lines 55-59):
`res < 0` zero-fills everything, `0 ≤ res < length` zero-fills
`buffer[res..length)`. -/
def afterFill (length : Nat) (res : Int) (data : List Nat) : List (Option Nat) :=
  let raw := (data.map some ++ List.replicate (length - data.length) none).take length
  if res < 0 then
    List.replicate length (some 0)
  else if res.toNat < length then
    raw.take res.toNat ++ List.replicate (length - res.toNat) (some 0)
  else
    raw

/-- Overlay `sub` on `buf` starting at (possibly negative) offset `off`:
the buffer effect of the recursive `Decode(&buffer[res], length - res, _)`
call writing into the tail slice. -/
def writeAt (buf : List (Option Nat)) (off : Int) (sub : List (Option Nat)) :
    List (Option Nat) :=
  (List.range buf.length).map fun (i : Nat) =>
    if (off ≤ (i : Int) ∧ (i : Int) < off + sub.length) then
      sub.getD ((i : Int) - off).toNat none
    else
      buf.getD i none

/-- `AudioDecoder::Decode(buffer, length, recursion_depth)` (lines 47-79):
returns the `int` result, the destination buffer contents, and the decoder
state afterwards.  The rate-limited diagnostic at depth 10 (lines 73-76) has
no state effect and is not modelled. -/
def decode {σ : Type} (B : Backend σ) (ds : DecState σ) (length depth : Nat) :
    Int × List (Option Nat) × DecState σ :=
  if ds.paused then
    ((length : Int), List.replicate length (some 0), ds)
  else
    let fr := B.fillBuffer ds.backend length
    let res := fr.1
    let buf1 := afterFill length res fr.2.1
    let b1 := fr.2.2
    if h : B.isFinished b1 = true ∧ ds.looping = true ∧ depth < 10 then
      let ds1 : DecState σ := ⟨B.rewind b1, ds.paused, ds.looping, ds.loop_count + 1⟩
      if 0 < (length : Int) - res then
        let r := decode B ds1 ((length : Int) - res).toNat (depth + 1)
        let buf2 := writeAt buf1 res r.2.1
        if r.1 ≤ 0 then (res, buf2, r.2.2) else (res + r.1, buf2, r.2.2)
      else
        (res, buf1, ds1)
    else
      (res, buf1, ⟨b1, ds.paused, ds.looping, ds.loop_count⟩)
termination_by 10 - depth
decreasing_by omega

/-- The `while (!IsFinished())` accumulation loop of `AudioDecoder::DecodeAll`
(lines 87-95), with explicit fuel (`none` = the loop did not exit within
`fuel` iterations; the source loop can run forever on a looping decoder).
Each iteration decodes into the last 8192-byte chunk of the growing buffer
(whose bytes were zero-initialised by `resize`), trims and stops when the
chunk is short, otherwise appends a fresh zeroed chunk. -/
def decodeAllLoop {σ : Type} (B : Backend σ) :
    Nat → List Nat → DecState σ → Option (List Nat × DecState σ)
  | 0, _, _ => none
  | fuel + 1, buffer, ds =>
    if B.isFinished ds.backend then
      some (buffer, ds)
    else
      let r := decode B ds 8192 0
      let pre := buffer.take (buffer.length - 8192)
      let tl := buffer.drop (buffer.length - 8192)
      let tl2 := (List.range 8192).map fun i => (r.2.1.getD i none).getD (tl.getD i 0)
      let buffer2 := pre ++ tl2
      if r.1 < 8192 then
        some (buffer2.take (((buffer2.length : Int) - ((8192 : Int) - r.1)).toNat), r.2.2)
      else
        decodeAllLoop B fuel (buffer2 ++ List.replicate 8192 0) r.2.2

/-- `AudioDecoder::DecodeAll()` (lines 81-98): starts from one zeroed
8192-byte chunk. -/
def DecodeAll {σ : Type} (B : Backend σ) (fuel : Nat) (ds : DecState σ) :
    Option (List Nat × DecState σ) :=
  decodeAllLoop B fuel (List.replicate 8192 0) ds

/-- A backend whose `FillBuffer` always fails (returns `-1`) and that never
reports finished. -/
def failBackend : Backend Unit :=
  ⟨fun s _ => (-1, [], s), fun _ => false, fun s => s⟩

/-- A backend that always fills the whole requested buffer with zero bytes. -/
def fullBackend : Backend Unit :=
  ⟨fun s len => ((len : Int), List.replicate len 0, s), fun _ => false, fun s => s⟩

/-- The backend behaviour of `WMAUnsupportedFormatDecoder` (lines 100-112):
`FillBuffer` returns `-1`, `IsFinished()` is always `true`.  (`Seek` returns
`false`; `Rewind` is modelled as the identity — it is never invoked because
looping is handled by callers only for real decoders.) -/
def wmaBackend : Backend Unit :=
  ⟨fun s _ => (-1, [], s), fun _ => true, fun s => s⟩

/-- The `error_message` set by the `WMAUnsupportedFormatDecoder`
constructor (lines 102-105). -/
def wmaErrorMessage : String :=
  "WMA audio files are not supported. Reinstall the\n" ++
    "game and don\x27t convert them when asked by Windows!\n"

/-! ### Format classifier / factory (`AudioDecoder::Create`)

The seekable byte stream is modelled as a byte list with a read position
and a single error flag (conflating `failbit`/`eofbit`, which the code only
sets together through short reads).  `seekg` on a failed stream is a no-op,
as in iostreams; `read` on a failed stream reads nothing (`gcount() == 0`);
a short read sets the error flag. -/

/-- The borrowed seekable stream. -/
structure Stream where
  data : List Nat
  pos : Nat
  err : Bool
deriving DecidableEq, Repr

/-- `stream.clear()`. -/
def Stream.clear (s : Stream) : Stream := { s with err := false }

/-- `stream.seekg(n, std::ios::beg)`: fails (no-op) on a stream whose error
flag is set. -/
def Stream.seekg (s : Stream) (n : Nat) : Stream :=
  if s.err then s else { s with pos := n }

/-- `stream.read(buf, n)`: returns the bytes read (`gcount()` is their
number) and the stream afterwards; a short read sets the error flag. -/
def Stream.read (s : Stream) (n : Nat) : List Nat × Stream :=
  if s.err then ([], s)
  else
    let avail := (s.data.drop s.pos).take n
    if avail.length < n then (avail, { s with pos := s.data.length, err := true })
    else (avail, { s with pos := s.pos + n })

/-- Which concrete decoder class `Create` constructed. -/
inductive DecKind where
  | midi | opus | oggvorbis | wav | libsndfile | wma | xmp | mpg123
deriving DecidableEq, Repr

/-- `Create`'s result: a decoder kind, possibly wrapped in an
`AudioResampler`. -/
structure Created where
  kind : DecKind
  resampled : Bool
deriving DecidableEq, Repr

/-- Build configuration (`#ifdef`s) plus oracles for the external
classifiers `Create` consults: `midi_creates` is whether
`MidiDecoder::Create` returns a decoder, `xmp_is_module` is
`XMPDecoder::IsModule` on the stream name, `mpg123_works` the value of the
process-wide `static bool mpg123_works` on entry (its write-back on failed
initialisation is process state no claim observes), `mpg123_inits` is
`mp3dec->WasInited()`, and `is_mp3` is `Mpg123Decoder::IsMp3`'s content
scan (modelled as leaving the stream unchanged; every following path either
returns a decoder or clears and rewinds the stream). -/
structure Config where
  have_opus : Bool
  have_vorbis : Bool
  want_fastwav : Bool
  have_libsndfile : Bool
  have_xmp : Bool
  have_mpg123 : Bool
  use_audio_resampler : Bool
  midi_creates : Bool
  xmp_is_module : Bool
  mpg123_works : Bool
  mpg123_inits : Bool
  is_mp3 : Bool
deriving DecidableEq, Repr

/-- Bytes of `"MThd"`. -/
def mthdMagic : List Nat := [77, 84, 104, 100]
/-- Bytes of `"OggS"`. -/
def oggsMagic : List Nat := [79, 103, 103, 83]
/-- Bytes of `"Opus"`. -/
def opusMagic : List Nat := [79, 112, 117, 115]
/-- Bytes of `"vorb"`. -/
def vorbMagic : List Nat := [118, 111, 114, 98]
/-- Bytes of `"RIFF"`. -/
def riffMagic : List Nat := [82, 73, 70, 70]
/-- Bytes of `"FORM"`. -/
def formMagic : List Nat := [70, 79, 82, 77]
/-- Bytes of `"fLaC"`. -/
def flacMagic : List Nat := [102, 76, 97, 67]
/-- `const char wma_magic[] = { 0x30, 0x26, 0xB2, 0x75 }` (line 113). -/
def wma_magic : List Nat := [0x30, 0x26, 0xB2, 0x75]
/-- Bytes of `"ID3"`. -/
def id3Magic : List Nat := [73, 68, 51]

/-- The `add_resampler` lambda of `Create` (lines 122-128). -/
def add_resampler (cfg : Config) (resample : Bool) (dec : Created) : Created :=
  if cfg.use_audio_resampler ∧ resample then { dec with resampled := true } else dec

/-- `Create` from line 181 on: the libsndfile group, the WMA check, XMP,
the mpg123 last resort, and the final clear-and-rewind fall-through
(lines 226-228).  `magic` is the current contents of the (possibly
overwritten) 4-byte `magic` array. -/
def createRest (cfg : Config) (resample : Bool) (magic : List Nat) (s : Stream) :
    Option Created × Stream :=
  if magic = riffMagic ∨ magic = formMagic ∨ magic = oggsMagic ∨ magic = flacMagic then
    if cfg.have_libsndfile then
      (some (add_resampler cfg resample ⟨DecKind.libsndfile, false⟩), s)
    else
      (none, s)
  else if magic = wma_magic then
    (some (⟨DecKind.wma, false⟩ : Created), s)
  else if cfg.have_xmp ∧ cfg.xmp_is_module then
    (some (add_resampler cfg resample ⟨DecKind.xmp, false⟩), s)
  else if cfg.have_mpg123 ∧ cfg.mpg123_works ∧ cfg.mpg123_inits ∧ magic.take 3 = id3Magic then
    (some (add_resampler cfg resample ⟨DecKind.mpg123, false⟩), s)
  else if cfg.have_mpg123 ∧ cfg.mpg123_works ∧ cfg.mpg123_inits ∧ cfg.is_mp3 then
    (some (add_resampler cfg resample ⟨DecKind.mpg123, false⟩), (s.clear).seekg 0)
  else
    (none, (s.clear).seekg 0)

/-- `Create` from line 165 on: the `WANT_FASTWAV` probe (on a RIFF magic,
read the format-code `uint16` at offset 20 — little-endian host, so
`Utils::SwapByteOrder` is a no-op — and build the lightweight WAV decoder
if it is `0x01`, plain PCM).  A failed 2-byte read leaves garbage in
`raw_enc` in the source; it is modelled as a non-match. -/
def createTail (cfg : Config) (resample : Bool) (magic : List Nat) (s : Stream) :
    Option Created × Stream :=
  if cfg.want_fastwav ∧ magic = riffMagic then
    let r := (s.seekg 20).read 2
    let s2 := r.2.seekg 0
    if r.1.length = 2 ∧ r.1.getD 0 0 + 256 * r.1.getD 1 0 = 1 then
      (some (add_resampler cfg resample ⟨DecKind.wav, false⟩), s2)
    else
      createRest cfg resample magic s2
  else
    createRest cfg resample magic s

/-- The Vorbis probe inside the Ogg branch (lines 152-162): read 4 bytes at
offset 29 into `magic` (overwriting it — the overwritten `magic` is what
the later RIFF/FORM/OggS/fLaC comparisons see), return nothing if
`gcount() == 0`, build a Vorbis decoder on a `"vorb"` match, otherwise fall
through to the rest of `Create`. -/
def vorbisProbe (cfg : Config) (resample : Bool) (magic : List Nat) (s : Stream) :
    Option Created × Stream :=
  if cfg.have_vorbis then
    let r := (s.seekg 29).read 4
    if r.1.length = 0 then
      (none, r.2)
    else
      let magic1 := r.1 ++ magic.drop r.1.length
      let s1 := r.2.seekg 0
      if magic1 = vorbMagic then
        (some (add_resampler cfg resample ⟨DecKind.oggvorbis, false⟩), s1)
      else
        createTail cfg resample magic1 s1
  else
    createTail cfg resample magic s

/-- `AudioDecoder::Create(stream, resample)` (lines 115-229): read the
4-byte magic (returning nothing, without restoring the stream, if it cannot
be read), seek back to 0, then the ordered first-match-wins classifier.
`MidiDecoder::Create` is an external sub-classifier; it is modelled by the
`midi_creates` oracle, leaving the stream unchanged on failure. -/
def Create (cfg : Config) (resample : Bool) (stream : Stream) :
    Option Created × Stream :=
  let r0 := stream.read 4
  if r0.1.length ≠ 4 then
    (none, r0.2)
  else
    let magic := r0.1
    let s := r0.2.seekg 0
    if magic = mthdMagic ∧ cfg.midi_creates then
      (some ⟨DecKind.midi, false⟩, s)
    else if magic = oggsMagic then
      if cfg.have_opus then
        let r := (s.seekg 28).read 4
        if r.1.length = 0 then
          (none, r.2)
        else
          let magic1 := r.1 ++ magic.drop r.1.length
          let s1 := r.2.seekg 0
          if magic1 = opusMagic then
            (some (add_resampler cfg resample ⟨DecKind.opus, false⟩), s1)
          else
            vorbisProbe cfg resample magic1 s1
      else
        vorbisProbe cfg resample magic s
    else
      createTail cfg resample magic s

/-- A build configuration with every feature disabled and every oracle
negative. -/
def cfgAllOff : Config :=
  ⟨false, false, false, false, false, false, false, false, false, false, false, false⟩

lemma applyOp_volume_bounds (s : FadeState) (op : FadeOp)
    (h0 : 0 ≤ s.volume) (h1 : s.volume ≤ 100) (ha : ArgOk op) :
    0 ≤ (applyOp s op).volume ∧ (applyOp s op).volume ≤ 100 := by
  cases op with
  | setVolume v =>
      rcases ha with ⟨hv0, hv1⟩
      simp only [applyOp, SetVolume]
      exact ⟨by show (0 : ℚ) ≤ (v : ℚ); exact_mod_cast hv0,
             by show (v : ℚ) ≤ 100; exact_mod_cast hv1⟩
  | setFade b e d =>
      rcases ha with ⟨hb0, hb1, he0, he1⟩
      simp only [applyOp, SetFade]
      split_ifs with hd hbe
      · exact ⟨by show (0 : ℚ) ≤ (e : ℚ); exact_mod_cast he0,
               by show (e : ℚ) ≤ 100; exact_mod_cast he1⟩
      · exact ⟨by show (0 : ℚ) ≤ (e : ℚ); exact_mod_cast he0,
               by show (e : ℚ) ≤ 100; exact_mod_cast he1⟩
      · exact ⟨by show (0 : ℚ) ≤ (b : ℚ); exact_mod_cast hb0,
               by show (b : ℚ) ≤ 100; exact_mod_cast hb1⟩
  | update d =>
      simp only [applyOp, Update]
      split_ifs with hft
      · exact ⟨h0, h1⟩
      · simp only [clampVolume]
        split_ifs with hgt hlt
        · norm_num
        · norm_num
        · exact ⟨le_of_not_lt hlt, le_of_not_lt hgt⟩

/-- C5 (counterexample): the claimed invariant `0 ≤ volume ≤ 100` is not
maintained for arbitrary integer arguments: starting from volume `0`,
`SetVolume(200)` leaves the stored volume at `200 > 100`, because
`SetVolume` performs no clamping. -/
theorem C5_counterexample :
    (applyOps ⟨0, 0, 0, 0⟩ [FadeOp.setVolume 200]).volume = 200 ∧
    ¬ ((applyOps ⟨0, 0, 0, 0⟩ [FadeOp.setVolume 200]).volume ≤ 100) := by
  norm_num [applyOps, applyOp, SetVolume]

/-- C5 (amended): for every sequence of `SetVolume`, `SetFade` and `Update`
operations whose volume arguments lie in `[0, 100]`, started from a state
whose volume lies in `[0, 100]`, the volume remains in `[0, 100]` after the
whole sequence (hence after each operation, the sequence being arbitrary). -/
theorem C5_volume_invariant (s : FadeState) (ops : List FadeOp)
    (h0 : 0 ≤ s.volume) (h1 : s.volume ≤ 100)
    (hargs : ∀ op ∈ ops, ArgOk op) :
    0 ≤ (applyOps s ops).volume ∧ (applyOps s ops).volume ≤ 100 := by
  induction ops generalizing s with
  | nil => exact ⟨h0, h1⟩
  | cons op ops ih =>
      have hop := applyOp_volume_bounds s op h0 h1 (hargs op (by simp))
      exact ih (applyOp s op) hop.1 hop.2 fun o ho => hargs o (by simp [ho])

/-- C5 witness: the invariant theorem applied to a concrete sequence. -/
theorem C5_volume_invariant_witness :
    0 ≤ (applyOps ⟨50, 0, 0, 0⟩ [FadeOp.setVolume 100, FadeOp.update 3]).volume ∧
    (applyOps ⟨50, 0, 0, 0⟩ [FadeOp.setVolume 100, FadeOp.update 3]).volume ≤ 100 :=
  C5_volume_invariant ⟨50, 0, 0, 0⟩ _ (by norm_num) (by norm_num)
    (by
      intro op hop
      simp only [List.mem_cons, List.not_mem_nil, or_false] at hop
      rcases hop with rfl | rfl <;> norm_num [ArgOk])

/-- C6: while a fade is active (`fade_time > 0`), `Update(delta)` decrements
the remaining fade time by `delta` and advances volume by `delta * step`
clamped into `[0, 100]`; when no fade is active (`fade_time ≤ 0`) it is a
no-op; and after `SetFade(0, 100, 1000)`, `Update(500)` yields volume `50`
(exactly, over `ℚ`), a further `Update(500)` yields volume `100`, and any
`Update` after fade completion changes nothing. -/
theorem C6_update_fade (s : FadeState) (delta : Int) :
    (s.fade_time ≤ 0 → Update s delta = s) ∧
    (0 < s.fade_time →
      Update s delta =
        { s with fade_time := s.fade_time - (delta : ℚ),
                 volume := clampVolume (s.volume + (delta : ℚ) * s.delta_step) }) ∧
    ((Update (SetFade s 0 100 1000) 500).volume = 50 ∧
     (Update (Update (SetFade s 0 100 1000) 500) 500).volume = 100 ∧
     Update (Update (Update (SetFade s 0 100 1000) 500) 500) delta =
       Update (Update (SetFade s 0 100 1000) 500) 500) := by
  refine ⟨fun h => by simp [Update, h], fun h => by simp [Update, not_le.mpr h], ?_⟩
  norm_num [SetFade, Update, clampVolume]

/-- C6 witness: `Update` at concrete no-op and active-fade states. -/
theorem C6_update_fade_witness :
    Update ⟨30, 0, 0, 0⟩ 7 = ⟨30, 0, 0, 0⟩ ∧
    Update ⟨0, 100, 1000, 1/10⟩ 500 =
      { volume := clampVolume (0 + (500 : ℚ) * (1/10)), fade_end := 100,
        fade_time := 1000 - (500 : ℚ), delta_step := 1/10 } :=
  ⟨(C6_update_fade ⟨30, 0, 0, 0⟩ 7).1 (by norm_num),
   (C6_update_fade ⟨0, 100, 1000, 1/10⟩ 500).2.1 (by norm_num)⟩

/-- C7: `SetFade(begin, end, duration)` with `duration ≤ 0` or
`begin = end` sets the volume immediately to `end` and clears the fade
(`fade_time := 0`), so every subsequent `Update` is a no-op; otherwise it
sets the volume to `begin`, records `end` and `duration`, and sets the
per-unit step to `(end - begin) / duration`. -/
theorem C7_setfade (s : FadeState) (b e d delta : Int) :
    ((d ≤ 0 ∨ b = e) →
      SetFade s b e d = { s with volume := (e : ℚ), fade_time := 0 } ∧
      Update (SetFade s b e d) delta = SetFade s b e d) ∧
    (0 < d → b ≠ e →
      SetFade s b e d =
        ⟨(b : ℚ), (e : ℚ), (d : ℚ), ((e : ℚ) - (b : ℚ)) / (d : ℚ)⟩) := by
  constructor
  · intro h
    have heq : SetFade s b e d = { s with volume := (e : ℚ), fade_time := 0 } := by
      rcases h with h | h
      · have : (d : ℚ) ≤ 0 := by exact_mod_cast h
        simp [SetFade, this]
      · by_cases hd : (d : ℚ) ≤ 0
        · simp [SetFade, hd]
        · simp [SetFade, hd, h]
    refine ⟨heq, ?_⟩
    rw [heq]
    simp [Update]
  · intro hd hbe
    have hd' : ¬ (d : ℚ) ≤ 0 := by
      simp only [not_le]
      exact_mod_cast hd
    simp [SetFade, hd', hbe]

/-- C7 witness: `SetFade` with equal endpoints and with a real fade. -/
theorem C7_setfade_witness :
    (SetFade ⟨1, 2, 3, 4⟩ 5 5 77 =
      { volume := ((5 : Int) : ℚ), fade_end := 2, fade_time := 0, delta_step := 4 } ∧
     Update (SetFade ⟨1, 2, 3, 4⟩ 5 5 77) 9 = SetFade ⟨1, 2, 3, 4⟩ 5 5 77) ∧
    SetFade ⟨1, 2, 3, 4⟩ 0 100 1000 =
      ⟨((0 : Int) : ℚ), ((100 : Int) : ℚ), ((1000 : Int) : ℚ),
       (((100 : Int) : ℚ) - ((0 : Int) : ℚ)) / ((1000 : Int) : ℚ)⟩ :=
  ⟨(C7_setfade ⟨1, 2, 3, 4⟩ 5 5 77 9).1 (Or.inr rfl),
   (C7_setfade ⟨1, 2, 3, 4⟩ 0 100 1000 9).2 (by norm_num) (by decide)⟩

/-- C8 (counterexample): the format enumeration handled by the byte-width
table has exactly 7 values, not the 8 stated by the claim. -/
theorem C8_counterexample :
    Fintype.card Format = 7 ∧ Fintype.card Format ≠ 8 := by
  constructor <;> decide

/-- C8 (amended): the byte-width lookup is a total pure function over the 7
enumerated sample formats, mapping them to widths `{1,1,2,2,4,4,4}`
(`S8,U8 → 1`; `S16,U16 → 2`; `S32,U32,F32 → 4`), so every width is in
`{1, 2, 4}`; no value outside the enumeration exists in the format type, so
the `assert` after the `switch` is unreachable. -/
theorem C8_samplesize_total (f : Format) :
    (GetSamplesizeForFormat .S8 = 1 ∧ GetSamplesizeForFormat .U8 = 1 ∧
     GetSamplesizeForFormat .S16 = 2 ∧ GetSamplesizeForFormat .U16 = 2 ∧
     GetSamplesizeForFormat .S32 = 4 ∧ GetSamplesizeForFormat .U32 = 4 ∧
     GetSamplesizeForFormat .F32 = 4) ∧
    (GetSamplesizeForFormat f = 1 ∨ GetSamplesizeForFormat f = 2 ∨
     GetSamplesizeForFormat f = 4) := by
  cases f <;> simp [GetSamplesizeForFormat]

lemma afterFill_length (n : Nat) (res : Int) (data : List Nat) :
    (afterFill n res data).length = n := by
  simp only [afterFill]
  split_ifs with h1 h2 <;>
    simp [List.length_take, List.length_append, List.length_replicate] <;> omega

lemma writeAt_length (buf sub : List (Option Nat)) (off : Int) :
    (writeAt buf off sub).length = buf.length := by
  simp [writeAt]

lemma afterFill_all_some (n : Nat) (res : Int) (data : List Nat)
    (h : 0 ≤ res → res.toNat ≤ data.length) :
    (afterFill n res data).all Option.isSome = true := by
  rw [List.all_eq_true]
  intro x hx
  simp only [afterFill] at hx
  split_ifs at hx with h1 h2
  · simp [List.eq_of_mem_replicate hx]
  · have hres : res.toNat ≤ data.length := h (not_lt.mp h1)
    rcases List.mem_append.mp hx with hx | hx
    · rw [List.take_take, min_eq_left (le_of_lt h2),
        List.take_append_of_le_length (by simpa using hres)] at hx
      obtain ⟨b, _, rfl⟩ := List.mem_map.mp (List.mem_of_mem_take hx)
      rfl
    · simp [List.eq_of_mem_replicate hx]
  · have hres : res.toNat ≤ data.length := h (not_lt.mp h1)
    have hn : n ≤ data.length := le_trans (not_lt.mp h2) hres
    rw [List.take_append_of_le_length (by simpa using hn)] at hx
    obtain ⟨b, _, rfl⟩ := List.mem_map.mp (List.mem_of_mem_take hx)
    rfl

lemma writeAt_all_some (buf sub : List (Option Nat)) (off : Int)
    (hb : buf.all Option.isSome = true) (hs : sub.all Option.isSome = true) :
    (writeAt buf off sub).all Option.isSome = true := by
  rw [List.all_eq_true] at *
  intro x hx
  simp only [writeAt, List.mem_map, List.mem_range] at hx
  obtain ⟨i, hi, rfl⟩ := hx
  split_ifs with hw
  · have hk : ((i : Int) - off).toNat < sub.length := by omega
    rw [List.getD_eq_getElem sub none hk]
    exact hs _ (List.getElem_mem hk)
  · rw [List.getD_eq_getElem buf none hi]
    exact hb _ (List.getElem_mem hi)

lemma decode_buf_length_aux {σ : Type} (B : Backend σ) :
    ∀ (k : Nat) (ds : DecState σ) (n depth : Nat), 10 - depth ≤ k →
      (decode B ds n depth).2.1.length = n := by
  intro k
  induction k with
  | zero =>
      intro ds n depth hd
      rw [decode]
      dsimp only
      split_ifs with h1 h2 h3 h4
      · simp
      · omega
      · omega
      · omega
      · simp [afterFill_length]
  | succ k ih =>
      intro ds n depth hd
      rw [decode]
      dsimp only
      split_ifs with h1 h2 h3 h4
      · simp
      · simp [writeAt_length, afterFill_length]
      · simp [writeAt_length, afterFill_length]
      · simp [afterFill_length]
      · simp [afterFill_length]

lemma decode_buf_all_some_aux {σ : Type} (B : Backend σ) (hB : GoodBackend B) :
    ∀ (k : Nat) (ds : DecState σ) (n depth : Nat), 10 - depth ≤ k →
      (decode B ds n depth).2.1.all Option.isSome = true := by
  intro k
  induction k with
  | zero =>
      intro ds n depth hd
      rw [decode]
      dsimp only
      split_ifs with h1 h2 h3 h4
      · simp
      · omega
      · omega
      · omega
      · exact afterFill_all_some _ _ _ (hB ds.backend n).2.2
  | succ k ih =>
      intro ds n depth hd
      rw [decode]
      dsimp only
      split_ifs with h1 h2 h3 h4
      · simp
      · exact writeAt_all_some _ _ _
          (afterFill_all_some _ _ _ (hB ds.backend n).2.2)
          (ih _ _ _ (by omega))
      · exact writeAt_all_some _ _ _
          (afterFill_all_some _ _ _ (hB ds.backend n).2.2)
          (ih _ _ _ (by omega))
      · exact afterFill_all_some _ _ _ (hB ds.backend n).2.2
      · exact afterFill_all_some _ _ _ (hB ds.backend n).2.2

lemma decode_loop_count_aux {σ : Type} (B : Backend σ) :
    ∀ (k : Nat) (ds : DecState σ) (n depth : Nat), 10 - depth ≤ k →
      ds.loop_count ≤ (decode B ds n depth).2.2.loop_count ∧
      (decode B ds n depth).2.2.loop_count ≤ ds.loop_count + (10 - depth) := by
  intro k
  induction k with
  | zero =>
      intro ds n depth hd
      rw [decode]
      dsimp only
      split_ifs with h1 h2 h3 h4
      · dsimp only
        omega
      · exact absurd h2.2.2 (by omega)
      · exact absurd h2.2.2 (by omega)
      · exact absurd h2.2.2 (by omega)
      · dsimp only
        omega
  | succ k ih =>
      intro ds n depth hd
      rw [decode]
      dsimp only
      split_ifs with h1 h2 h3 h4
      · dsimp only
        omega
      · have h5 := ih ⟨B.rewind (B.fillBuffer ds.backend n).2.2, ds.paused, ds.looping,
          ds.loop_count + 1⟩ ((n : Int) - (B.fillBuffer ds.backend n).1).toNat (depth + 1)
          (by omega)
        dsimp only at h5
        dsimp only
        omega
      · have h5 := ih ⟨B.rewind (B.fillBuffer ds.backend n).2.2, ds.paused, ds.looping,
          ds.loop_count + 1⟩ ((n : Int) - (B.fillBuffer ds.backend n).1).toNat (depth + 1)
          (by omega)
        dsimp only at h5
        dsimp only
        omega
      · dsimp only
        have h6 := h2.2.2
        omega
      · dsimp only
        omega

/-- C1 (counterexample): `Decode` does not always return exactly `length`.
With a backend whose `FillBuffer` returns `-1` and that is not finished
(so no loop re-entry), `Decode(buf, 1)` returns `-1`, not `1` — the final
`return res` propagates the negative fill result. -/
theorem C1_counterexample :
    (decode failBackend ⟨(), false, false, 0⟩ 1 0).1 = -1 ∧
    (decode failBackend ⟨(), false, false, 0⟩ 1 0).1 ≠ (1 : Int) := by
  rw [decode]
  norm_num [failBackend]

/-- C1 (amended): for every destination length and every result of the
backend `FillBuffer` primitive of a contract-honouring backend (negative
results zero-fill the whole destination, partial results zero-fill the
remainder), `Decode(buffer, length)` leaves all `length` destination bytes
defined; the value it returns is the byte count from the top-level fill plus
any loop re-entry fills, which can be less than `length` (and negative). -/
theorem C1_decode_defines_buffer {σ : Type} (B : Backend σ) (ds : DecState σ)
    (n : Nat) (hB : GoodBackend B) :
    (decode B ds n 0).2.1.length = n ∧
    (decode B ds n 0).2.1.all Option.isSome = true :=
  ⟨decode_buf_length_aux B 10 ds n 0 (by omega),
   decode_buf_all_some_aux B hB 10 ds n 0 (by omega)⟩

/-- C1 witness: the amended theorem at a concrete backend and length. -/
theorem C1_decode_defines_buffer_witness :
    (decode fullBackend ⟨(), false, false, 0⟩ 3 0).2.1.length = 3 ∧
    (decode fullBackend ⟨(), false, false, 0⟩ 3 0).2.1.all Option.isSome = true :=
  C1_decode_defines_buffer fullBackend ⟨(), false, false, 0⟩ 3
    (fun s len => by refine ⟨?_, ?_, ?_⟩ <;> simp [fullBackend])

/-- C2: a top-level `Decode(buf, length)` call terminates (`decode` is a
total function, its recursion is bounded by `10 - depth`), never decreases
`loop_count`, and increments it by at most 10 — one increment per loop
re-entry, and the re-entry recursion hard-stops at depth 10.  This holds for
every backend, in particular one that reports finished after producing
`k < length` bytes on every `FillBuffer` call, with looping enabled. -/
theorem C2_loop_count_bound {σ : Type} (B : Backend σ) (ds : DecState σ) (n : Nat) :
    ds.loop_count ≤ (decode B ds n 0).2.2.loop_count ∧
    (decode B ds n 0).2.2.loop_count ≤ ds.loop_count + 10 :=
  decode_loop_count_aux B 10 ds n 0 (by omega)

/-- C4: while paused, `Decode(buf, N)` returns `N`, the destination is
entirely zero bytes, and the backend fill primitive is never invoked — the
decoder state (backend state and `loop_count` included) is unchanged, so the
underlying read position is unchanged. -/
theorem C4_paused_decode {σ : Type} (B : Backend σ) (ds : DecState σ) (n : Nat)
    (h : ds.paused = true) :
    decode B ds n 0 = ((n : Int), List.replicate n (some 0), ds) := by
  rw [decode]
  simp [h]

/-- C4 witness: the theorem at a concrete paused decoder. -/
theorem C4_paused_decode_witness :
    decode fullBackend ⟨(), true, false, 0⟩ 2 0 =
      ((2 : Int), List.replicate 2 (some 0), ⟨(), true, false, 0⟩) :=
  C4_paused_decode fullBackend ⟨(), true, false, 0⟩ 2 rfl

/-- C10: `DecodeAll` on a decoder whose `IsFinished()` is already true
before the first chunk is read returns exactly the pre-allocated 8192-byte
zero-filled first chunk (not an empty buffer): the loop body never runs, so
no trimming occurs, for any positive fuel. -/
theorem C10_decodeall_finished {σ : Type} (B : Backend σ) (ds : DecState σ)
    (fuel : Nat) (h : B.isFinished ds.backend = true) :
    DecodeAll B (fuel + 1) ds = some (List.replicate 8192 0, ds) ∧
    (List.replicate (8192 : Nat) (0 : Nat)).length = 8192 := by
  refine ⟨?_, List.length_replicate 8192 0⟩
  rw [DecodeAll, decodeAllLoop, if_pos h]

/-- C10 witness: the theorem at the WMA sentinel backend, which is finished
from the start. -/
theorem C10_decodeall_finished_witness :
    DecodeAll wmaBackend 1 ⟨(), false, false, 0⟩ =
      some (List.replicate 8192 0, (⟨(), false, false, 0⟩ : DecState Unit)) ∧
    (List.replicate (8192 : Nat) (0 : Nat)).length = 8192 :=
  C10_decodeall_finished wmaBackend ⟨(), false, false, 0⟩ 0 rfl

lemma clear_seekg_spec (t : Stream) :
    ((t.clear).seekg 0).pos = 0 ∧ ((t.clear).seekg 0).err = false := by
  simp [Stream.clear, Stream.seekg]

lemma seekg_zero_spec (t : Stream) :
    (t.seekg 0).err = t.err ∧ (t.err = false → (t.seekg 0).pos = 0) := by
  simp only [Stream.seekg]
  split_ifs with h
  · exact ⟨rfl, fun hf => by rw [hf] at h; exact absurd h (by simp)⟩
  · exact ⟨rfl, fun _ => rfl⟩

lemma streamOk_seekg_zero (t : Stream) :
    ((t.seekg 0).pos = 0 ∧ (t.seekg 0).err = false) ∨ (t.seekg 0).err = true := by
  by_cases he : t.err = true
  · exact Or.inr (by rw [(seekg_zero_spec t).1, he])
  · have hf : t.err = false := by simpa using he
    exact Or.inl ⟨(seekg_zero_spec t).2 hf, by rw [(seekg_zero_spec t).1, hf]⟩

lemma read_short_err (t : Stream) (n : Nat) (h : (t.read n).1.length ≠ n) :
    (t.read n).2.err = true := by
  simp only [Stream.read] at *
  split_ifs at * with h1 h2
  · exact h1
  · rfl
  · exfalso
    apply h
    dsimp only
    have hle : ((t.data.drop t.pos).take n).length ≤ n := by
      simp
    omega

lemma createRest_none_spec (cfg : Config) (resample : Bool) (magic : List Nat)
    (s : Stream) (hs : (s.pos = 0 ∧ s.err = false) ∨ s.err = true)
    (h : (createRest cfg resample magic s).1 = none) :
    ((createRest cfg resample magic s).2.pos = 0 ∧
     (createRest cfg resample magic s).2.err = false) ∨
    (createRest cfg resample magic s).2.err = true := by
  simp only [createRest] at h ⊢
  split_ifs at h ⊢
  · exact hs
  · exact Or.inl (clear_seekg_spec s)

lemma createTail_none_spec (cfg : Config) (resample : Bool) (magic : List Nat)
    (s : Stream) (hs : (s.pos = 0 ∧ s.err = false) ∨ s.err = true)
    (h : (createTail cfg resample magic s).1 = none) :
    ((createTail cfg resample magic s).2.pos = 0 ∧
     (createTail cfg resample magic s).2.err = false) ∨
    (createTail cfg resample magic s).2.err = true := by
  simp only [createTail] at h ⊢
  split_ifs at h ⊢
  · exact createRest_none_spec _ _ _ _ (streamOk_seekg_zero _) h
  · exact createRest_none_spec _ _ _ _ hs h

lemma vorbisProbe_none_spec (cfg : Config) (resample : Bool) (magic : List Nat)
    (s : Stream)
    (hs : (s.pos = 0 ∧ s.err = false) ∨ s.err = true)
    (h : (vorbisProbe cfg resample magic s).1 = none) :
    ((vorbisProbe cfg resample magic s).2.pos = 0 ∧
     (vorbisProbe cfg resample magic s).2.err = false) ∨
    (vorbisProbe cfg resample magic s).2.err = true := by
  simp only [vorbisProbe] at h ⊢
  split_ifs at h ⊢
  · exact Or.inr (read_short_err _ 4 (by simp_all))
  · exact createTail_none_spec _ _ _ _ (streamOk_seekg_zero _) h
  · exact createTail_none_spec _ _ _ _ hs h

/-- C3 (amended): whenever `Create` returns nothing, either the stream is
left positioned at absolute offset 0 with its error flags cleared (this is
the case on the final fall-through, lines 226-228, and on the
libsndfile-not-compiled path when no probe failed), or the nothing-return
came from a failed stream read — the initial 4-byte magic read or a
container-internal probe read — and the stream's error flag is set (those
early returns, lines 117-119, 142-144 and 153-156, do not restore the
stream). -/
theorem C3_create_none_stream_state (cfg : Config) (resample : Bool) (s : Stream)
    (h : (Create cfg resample s).1 = none) :
    ((Create cfg resample s).2.pos = 0 ∧ (Create cfg resample s).2.err = false) ∨
    (Create cfg resample s).2.err = true := by
  simp only [Create] at h ⊢
  split_ifs at h ⊢
  · exact Or.inr (read_short_err s 4 (by assumption))
  · exact Or.inr (read_short_err _ 4 (by simp_all))
  · exact vorbisProbe_none_spec _ _ _ _ (streamOk_seekg_zero _) h
  · exact vorbisProbe_none_spec _ _ _ _ (streamOk_seekg_zero _) h
  · exact createTail_none_spec _ _ _ _ (streamOk_seekg_zero _) h

/-- C3 (counterexample): on a stream that cannot supply the 4 magic bytes
(here: an empty stream, positioned at 0, error-free), `Create` returns
nothing but leaves the stream's error flag set (the early return at lines
117-119 performs no `clear`/`seekg`), contradicting the claim that every
nothing-returning path leaves the stream at offset 0 with error flags
cleared. -/
theorem C3_counterexample :
    (Create cfgAllOff false ⟨[], 0, false⟩).1 = none ∧
    (Create cfgAllOff false ⟨[], 0, false⟩).2.err = true := by
  decide

/-- C3 witness: the amended theorem at the same concrete failed-read
input. -/
theorem C3_create_none_stream_state_witness :
    ((Create cfgAllOff false ⟨[], 0, false⟩).2.pos = 0 ∧
     (Create cfgAllOff false ⟨[], 0, false⟩).2.err = false) ∨
    (Create cfgAllOff false ⟨[], 0, false⟩).2.err = true :=
  C3_create_none_stream_state cfgAllOff false ⟨[], 0, false⟩ (by decide)

/-- C9: for every build configuration and every error-free stream
positioned at 0 whose 4 leading bytes are the vendor WMA signature
`0x30 0x26 0xB2 0x75` (which matches no earlier classifier step), `Create`
returns the sentinel `WMAUnsupportedFormatDecoder` (never nothing, never
resampled), whose `IsFinished()` is immediately true and whose error string
is non-empty. -/
theorem C9_wma_sentinel (cfg : Config) (resample : Bool) (s : Stream)
    (h0 : s.err = false) (h1 : s.pos = 0) (h2 : s.data.take 4 = wma_magic) :
    (Create cfg resample s).1 = some ⟨DecKind.wma, false⟩ ∧
    wmaBackend.isFinished () = true ∧ wmaErrorMessage ≠ "" := by
  have hdrop : (s.data.drop s.pos).take 4 = wma_magic := by
    rw [h1]
    simpa using h2
  have hr : s.read 4 = (wma_magic, { s with pos := s.pos + 4 }) := by
    simp [Stream.read, h0, hdrop, wma_magic]
  refine ⟨?_, rfl, by decide⟩
  simp only [Create, hr]
  norm_num [createTail, createRest, wma_magic, mthdMagic, oggsMagic, riffMagic,
    formMagic, flacMagic]

/-- C9 witness: the theorem at a concrete 4-byte WMA-signature stream under
the all-off configuration. -/
theorem C9_wma_sentinel_witness :
    (Create cfgAllOff false ⟨[0x30, 0x26, 0xB2, 0x75], 0, false⟩).1 =
      some ⟨DecKind.wma, false⟩ ∧
    wmaBackend.isFinished () = true ∧ wmaErrorMessage ≠ "" :=
  C9_wma_sentinel cfgAllOff false ⟨[0x30, 0x26, 0xB2, 0x75], 0, false⟩
    rfl rfl (by decide)

end Player
